import Mathlib

/-
Verification of the @vibe/client request/authentication/response-normalization
layer (packages/client/src: http, error, collection, admin, client modules).

The TypeScript source is shallowly embedded: JSON values are an inductive
type, JavaScript truthiness / nullish-coalescing / object-literal semantics
are explicit helper functions, and the effectful pieces (the access-token
supplier, the fetch transport, the clock, the crypto primitives) are passed
in as explicit values so that every definition is a pure, executable
function.  JS numbers that occur in this layer (limits, offsets, totals,
statuses, ids, timestamps) are integers and are modeled as Int.
-/

namespace Vibe

/-- A JSON value.  `JSON.stringify`/`JSON.parse` round-trips are not modeled;
request bodies are kept as the JSON value handed to `JSON.stringify`. -/
inductive Json where
  | null
  | bool (b : Bool)
  | num (n : Int)
  | str (s : String)
  | arr (elems : List Json)
  | obj (fields : List (String × Json))

/-- First value bound to `key` in an object's field list (JS objects cannot
hold duplicate keys, so field lists built by the embedding keep one entry
per key). -/
def getField : List (String × Json) → String → Option Json
  | [], _ => none
  | (k, v) :: rest, key => if k = key then some v else getField rest key

/-- JS `key in obj`. -/
def hasKey (fields : List (String × Json)) (key : String) : Bool :=
  (getField fields key).isSome

/-- JS property access `base[key]`: `undefined` (= `none`) on non-objects. -/
def Json.get : Json → String → Option Json
  | .obj fields, key => getField fields key
  | _, _ => none

/-- JS truthiness of a value. -/
def jsTruthy : Json → Bool
  | .null => false
  | .bool b => b
  | .num n => n != 0
  | .str s => s != ""
  | .arr _ => true
  | .obj _ => true

/-- JS `a || b` where `a` is a possibly-absent property value. -/
def jsOr (a : Option Json) (b : Json) : Json :=
  match a with
  | some v => if jsTruthy v then v else b
  | none => b

/-- JS `a || b` where both sides are possibly-absent property values. -/
def jsOrOpt (a b : Option Json) : Option Json :=
  match a with
  | some v => if jsTruthy v then some v else b
  | none => b

/-- Collapse `null` to `undefined`: the shared test used by `?.` and `??`. -/
def nullish : Option Json → Option Json
  | some .null => none
  | o => o

/-- JS optional chaining `base?.key`. -/
def optChain (base : Option Json) (key : String) : Option Json :=
  match nullish base with
  | some v => v.get key
  | none => none

/-- JS `a ?? b` where `a` is a possibly-absent property value. -/
def coalesce (a : Option Json) (b : Json) : Json :=
  match nullish a with
  | some v => v
  | none => b

/-- A property value that is either absent or falsy (so a JS `||` chain
falls through it). -/
def absentOrFalsy (o : Option Json) : Bool :=
  match o with
  | some v => !jsTruthy v
  | none => true

/-- Assign `key := v` in an object's field list: JS assignment updates an
existing slot in place (keeping its position) and otherwise appends. -/
def setField : List (String × Json) → String → Json → List (String × Json)
  | [], key, v => [(key, v)]
  | (k, w) :: rest, key, v =>
    if k = key then (k, v) :: rest else (k, w) :: setField rest key v

/-- A JS object literal built left to right (later entries override earlier
ones in place, as `{ a: x, ...rest }` does). -/
def mkObj (kvs : List (String × Json)) : Json :=
  .obj (kvs.foldl (fun acc kv => setField acc kv.1 kv.2) [])

/-- The fields contributed by a JS object spread `{ ...v }`: objects supply
their fields, arrays and strings their indexed elements, primitives
nothing. -/
def spreadFields : Json → List (String × Json)
  | .obj fields => fields
  | .arr xs => xs.enum.map fun iv => (toString iv.1, iv.2)
  | .str s => s.toList.enum.map fun ic => (toString ic.1, .str ic.2.toString)
  | _ => []

mutual

/-- JS `String(v)`. -/
def jsToString : Json → String
  | .null => "null"
  | .bool b => if b then "true" else "false"
  | .num n => toString n
  | .str s => s
  | .arr xs => jsArrJoin xs
  | .obj _ => "[object Object]"
termination_by structural j => j

/-- `Array.prototype.toString`: elements joined with commas, `null`
elements rendered as the empty string. -/
def jsArrJoin : List Json → String
  | [] => ""
  | [.null] => ""
  | [x] => jsToString x
  | .null :: rest => "," ++ jsArrJoin rest
  | x :: rest => jsToString x ++ "," ++ jsArrJoin rest
termination_by structural l => l

end

/-- Length available to JS `.length`: defined for arrays and strings,
`undefined` otherwise. -/
def jsLen : Json → Option Int
  | .arr xs => some xs.length
  | .str s => some s.length
  | _ => none

/-- String record (headers, query params) lookup: first binding wins. -/
def getStr : List (String × String) → String → Option String
  | [], _ => none
  | (k, v) :: rest, key => if k = key then some v else getStr rest key

/-- String record assignment: update in place or append (the semantics of
`headers[k] = v` and of `URLSearchParams.set`). -/
def setStr : List (String × String) → String → String → List (String × String)
  | [], key, v => [(key, v)]
  | (k, w) :: rest, key, v =>
    if k = key then (k, v) :: rest else (k, w) :: setStr rest key v

/-! ### Error model (error.ts) -/

/-- The closed error-code taxonomy of `types.ts` / `error.ts`. -/
inductive VibeErrorCode where
  | NETWORK_ERROR
  | UNAUTHORIZED
  | FORBIDDEN
  | NOT_FOUND
  | VALIDATION_ERROR
  | CONFLICT
  | RATE_LIMITED
  | SERVER_ERROR
  | UNKNOWN_ERROR
deriving DecidableEq, Repr

/-- A `VibeError` instance: `{code, message, status?, details?}`. -/
structure VibeError where
  code : VibeErrorCode
  message : String
  status : Option Int := none
  details : Option Json := none

/-- `VibeError.statusToCode` (error.ts): the fixed status table. -/
def VibeError.statusToCode (status : Int) : VibeErrorCode :=
  if status = 401 then .UNAUTHORIZED
  else if status = 403 then .FORBIDDEN
  else if status = 404 then .NOT_FOUND
  else if status = 409 then .CONFLICT
  else if status = 422 then .VALIDATION_ERROR
  else if status = 429 then .RATE_LIMITED
  else if status ≥ 500 then .SERVER_ERROR
  else .UNKNOWN_ERROR

/-- `VibeError.isRetryable` (error.ts). -/
def VibeError.isRetryable (e : VibeError) : Bool :=
  match e.code with
  | .NETWORK_ERROR | .RATE_LIMITED | .SERVER_ERROR => true
  | _ => false

/-- A thrown JS `Error` object that is not a `VibeError`, identified by its
`name` and `message`. -/
structure RawExc where
  name : String
  message : String

/-- A value thrown by JS code: a `VibeError`, another `Error`, or a
non-`Error` value (carried by its string conversion). -/
inductive Thrown where
  | vibe (e : VibeError)
  | exc (e : RawExc)
  | value (s : String)

/-- Whether a thrown value belongs to the normalized taxonomy
(`instanceof VibeError`). -/
def Thrown.isVibe : Thrown → Bool
  | .vibe _ => true
  | _ => false

/-- JS `String.prototype.includes`. -/
def strIncludes (s pat : String) : Bool :=
  (s.splitOn pat).length > 1

/-- `VibeError.fromError` (error.ts): classify a caught exception. -/
def VibeError.fromError : Thrown → VibeError
  | .vibe e => e
  | .exc e =>
    if e.name == "TypeError" && strIncludes e.message "fetch" then
      { code := .NETWORK_ERROR,
        message := "Network request failed. Please check your connection.",
        details := some (.obj [("originalError", .str e.message)]) }
    else if e.name == "AbortError" then
      { code := .NETWORK_ERROR,
        message := "Request timed out",
        details := some (.obj [("originalError", .str e.message)]) }
    else
      { code := .UNKNOWN_ERROR,
        message := e.message,
        details := some (.obj [("originalError", .str e.message)]) }
  | .value s =>
    { code := .UNKNOWN_ERROR,
      message := "An unknown error occurred",
      details := some (.obj [("originalError", .str s)]) }

/-- An HTTP response as this layer observes it: status, status text, and the
JSON-parsed body (`none` when the text was not valid JSON; an empty body is
modeled as the parse result the code substitutes for it, `{}`). -/
structure HttpResp where
  status : Int
  statusText : String
  body : Option Json

/-- `response.ok`: status in the 200–299 range. -/
def HttpResp.ok (r : HttpResp) : Bool :=
  decide (200 ≤ r.status) && decide (r.status < 300)

/-- `VibeError.fromResponse` (error.ts): build the normalized error for a
non-success response. -/
def VibeError.fromResponse (r : HttpResp) : VibeError :=
  let fallbackMsg := "HTTP " ++ toString r.status ++ ": " ++ r.statusText
  let message :=
    match r.body with
    | some b =>
      match jsOrOpt (optChain (b.get "error") "message") none with
      | some m => jsToString m
      | none =>
        match jsOrOpt (b.get "message") none with
        | some m => jsToString m
        | none => fallbackMsg
    | none => fallbackMsg
  let details :=
    match r.body with
    | some b => jsOrOpt (optChain (b.get "error") "details") (b.get "details")
    | none => none
  { code := VibeError.statusToCode r.status,
    message := message,
    status := some r.status,
    details := details }

/-! ### Configuration (client.ts) and HTTP layer (http.ts) -/

/-- The resolved configuration (`ResolvedVibeConfig` in client.ts).  The
access-token supplier is effectful and is passed separately to the request
functions as its per-call outcome. -/
structure ResolvedVibeConfig where
  apiUrl : String
  idpUrl : String
  clientId : String
  signingKey : String
  defaultCollection : String
  debug : Bool
  timeout : Int
  useProxy : Bool
deriving DecidableEq, Repr

/-- An environment-provided HMAC-SHA256 primitive: base64 key and message to
base64 signature.  Web Crypto and the node `crypto` module both decode the
base64 key and apply HMAC-SHA256, so both are drawn from this type. -/
def HmacFn := String → String → String

/-- The canonical string signed for a proxy request:
`"{timestamp}|{method}|{endpoint}"`. -/
def stringToSign (timestamp : Int) (method endpoint : String) : String :=
  toString timestamp ++ "|" ++ method ++ "|" ++ endpoint

/-- `generateHmacSignature` (http.ts): sign with Web Crypto when present,
fall back to the node `crypto` module, and otherwise throw the
`SERVER_ERROR` "HMAC signing not available" error.  `web`/`node` are the
runtime's available primitives (`none` = unavailable). -/
def generateHmacSignature (web node : Option HmacFn)
    (signingKey : String) (timestamp : Int) (method endpoint : String) :
    Except VibeError String :=
  let s := stringToSign timestamp method endpoint
  match web with
  | some h => .ok (h signingKey s)
  | none =>
    match node with
    | some h => .ok (h signingKey s)
    | none =>
      .error { code := .SERVER_ERROR,
               message := "HMAC signing not available - missing crypto support" }

/-- An outgoing HTTP request: URL, wire method, headers, and the JSON value
handed to `JSON.stringify` for the body (`none` = no body). -/
structure HttpReq where
  url : String
  method : String
  headers : List (String × String)
  body : Option Json

/-- The headers `httpRequest` builds before dispatching: `Content-Type`,
plus `Authorization: Bearer <token>` when auth is not skipped and the
supplier returned a truthy token. -/
def buildAuthHeaders (skipAuth : Bool) (token : Option String) :
    List (String × String) :=
  let headers := [("Content-Type", "application/json")]
  if skipAuth then headers
  else
    match token with
    | some t => if t != "" then setStr headers "Authorization" ("Bearer " ++ t) else headers
    | none => headers

/-- `makeDirectRequest` (http.ts): the logical method against
`{apiUrl}{endpoint}` (a falsy body is sent as no body). -/
def makeDirectRequest (config : ResolvedVibeConfig) (endpoint method : String)
    (body : Option Json) (headers : List (String × String)) : HttpReq :=
  { url := config.apiUrl ++ endpoint,
    method := method,
    headers := headers,
    body :=
      match body with
      | some b => if jsTruthy b then some b else none
      | none => none }

/-- `makeProxyRequest` (http.ts): always a POST to
`{idpUrl}/api/vibe/proxy`; attaches `X-Vibe-Client-Id`, and when a signing
key is configured also `X-Vibe-Timestamp` and `X-Vibe-Signature`; the body
is `{endpoint, method, data: body ?? null}`.  `now` is
`Math.floor(Date.now() / 1000)`. -/
def makeProxyRequest (web node : Option HmacFn) (config : ResolvedVibeConfig)
    (endpoint method : String) (body : Option Json)
    (headers : List (String × String)) (now : Int) :
    Except VibeError HttpReq :=
  let proxyUrl := config.idpUrl ++ "/api/vibe/proxy"
  let headers := setStr headers "X-Vibe-Client-Id" config.clientId
  let signedHeaders : Except VibeError (List (String × String)) :=
    if config.signingKey != "" then
      match generateHmacSignature web node config.signingKey now method endpoint with
      | .ok signature =>
        .ok (setStr (setStr headers "X-Vibe-Timestamp" (toString now))
              "X-Vibe-Signature" signature)
      | .error e => .error e
    else .ok headers
  match signedHeaders with
  | .error e => .error e
  | .ok hs =>
    .ok { url := proxyUrl,
          method := "POST",
          headers := hs,
          body := some (mkObj [("endpoint", .str endpoint),
                               ("method", .str method),
                               ("data", body.getD .null)]) }

/-- `httpRequest` (http.ts).  `tokenResult` is the outcome of
`await config.getAccessToken()`; note that in the source this await sits
before the `try` block, so a supplier failure leaves `httpRequest` without
passing through `VibeError.fromError`.  `fetchFn` is the transport:
the response, or the exception `fetch` threw. -/
def httpRequest (web node : Option HmacFn) (config : ResolvedVibeConfig)
    (endpoint : String) (method : String) (body : Option Json)
    (skipAuth : Bool) (tokenResult : Except Thrown (Option String))
    (now : Int) (fetchFn : HttpReq → Except Thrown HttpResp) :
    Except Thrown HttpResp :=
  match (if skipAuth then Except.ok none else tokenResult) with
  | .error t => .error t
  | .ok token =>
    let headers := buildAuthHeaders skipAuth token
    let attempt : Except Thrown HttpResp :=
      match (if config.useProxy then
               makeProxyRequest web node config endpoint method body headers now
             else
               .ok (makeDirectRequest config endpoint method body headers)) with
      | .error e => .error (.vibe e)
      | .ok req =>
        match fetchFn req with
        | .error t => .error t
        | .ok resp =>
          if resp.ok then .ok resp
          else .error (.vibe (VibeError.fromResponse resp))
    match attempt with
    | .ok resp => .ok resp
    | .error t => .error (.vibe (VibeError.fromError t))

/-- `parseResponse` (http.ts): 204 and empty bodies become `{}`, invalid
JSON becomes a `SERVER_ERROR`. -/
def parseResponse (r : HttpResp) : Except Thrown Json :=
  if r.status = 204 then .ok (.obj [])
  else
    match r.body with
    | some j => .ok j
    | none =>
      .error (.vibe { code := .SERVER_ERROR,
                      message := "Invalid JSON response from server",
                      status := some r.status })

/-- `convertFiltersToVibeFormat` (http.ts): drop null/undefined entries,
pass `{operator, value}` pairs through, wrap everything else as an `eq`
filter.  Filter values are `Option Json` with `none` = `undefined`. -/
def convertFiltersToVibeFormat (filter : List (String × Option Json)) :
    List Json :=
  filter.foldl
    (fun acc kv =>
      match kv.2 with
      | none => acc
      | some .null => acc
      | some v =>
        match v with
        | .obj fs =>
          if hasKey fs "operator" && hasKey fs "value" then
            acc ++ [.obj [("field", .str kv.1),
                          ("operator", (getField fs "operator").getD .null),
                          ("value", (getField fs "value").getD .null)]]
          else
            acc ++ [.obj [("field", .str kv.1), ("operator", .str "eq"), ("value", v)]]
        | _ =>
          acc ++ [.obj [("field", .str kv.1), ("operator", .str "eq"), ("value", v)]])
    []

/-! ### Collection accessor (collection.ts) -/

/-- `CollectionImpl.unwrapDocument` (collection.ts): a truthy object with
both `document_id` and `data` keys is the Vibe envelope and is rebuilt as
`{id: document_id, ...parsedData}`; a string `data` is `JSON.parse`d with
failures swallowed to `{}`; everything else passes through.  `parse` is
`JSON.parse` (`none` = parse threw). -/
def unwrapDocument (parse : String → Option Json) (doc : Json) : Option Json :=
  if !jsTruthy doc then none
  else
    match doc with
    | .obj fields =>
      if hasKey fields "document_id" && hasKey fields "data" then
        let did := (getField fields "document_id").getD .null
        let parsedData : Json :=
          match (getField fields "data").getD .null with
          | .str s =>
            match parse s with
            | some p => p
            | none => .obj []
          | .obj fs => .obj fs
          | .arr xs => .arr xs
          | _ => .obj []
        some (mkObj (("id", did) :: spreadFields parsedData))
      else some doc
    | _ => some doc

/-- `CollectionImpl.unwrapDocuments`: map the unwrap and drop nulls. -/
def unwrapDocuments (parse : String → Option Json) (docs : List Json) :
    List Json :=
  (docs.map (unwrapDocument parse)).filterMap id

/-- The data selection of direct-mode `list`
(collection.ts line 57): `Array.isArray(body) ? body : (body.data || [])`. -/
def directListData (body : Json) : Json :=
  match body with
  | .arr xs => .arr xs
  | _ => jsOr (body.get "data") (.arr [])

/-- The data selection of proxy-mode `listViaQuery`
(collection.ts line 113): `body.data || body.items || body.documents || []`. -/
def proxyListSelected (body : Json) : Json :=
  jsOr (body.get "data")
    (jsOr (body.get "items")
      (jsOr (body.get "documents") (.arr [])))

/-- A `pagination` record.  `total` keeps the raw JSON value the code
extracted (`none` = `undefined`). -/
structure Pagination where
  total : Option Json
  limit : Int
  offset : Int
  hasMore : Bool

/-- A `ListResult`: the selected `data` value plus pagination. -/
structure ListResultM where
  data : Json
  pagination : Pagination

/-- `offset + data.length < total` as JS evaluates it for the values this
layer produces: false whenever the length is `undefined` or the total is
not a number (NaN comparisons; coercing numeric strings does not arise in
the typed response shapes). -/
def hasMoreCalc (offset : Int) (len : Option Int) (total : Option Json) : Bool :=
  match len, total with
  | some l, some (.num t) => decide (offset + l < t)
  | _, _ => false

/-- Direct-mode `list` result construction (collection.ts lines 55-68):
`total = body.meta?.total ?? data.length`. -/
def listDirectResult (body : Json) (limit offset : Int) : ListResultM :=
  let data := directListData body
  let len := jsLen data
  let total : Option Json :=
    match nullish (optChain (body.get "meta") "total") with
    | some v => some v
    | none => len.map Json.num
  { data := data,
    pagination :=
      { total := total, limit := limit, offset := offset,
        hasMore := hasMoreCalc offset len total } }

/-- Proxy-mode `listViaQuery` result construction (collection.ts lines
104-124): selected documents are unwrapped, then
`total = body.meta?.total ?? body.meta?.totalCount ?? body.totalCount ??
data.length`.  `none` models the `TypeError` JS throws when the selected
value is not an array (`docs.map`). -/
def listViaQueryResult (parse : String → Option Json) (body : Json)
    (limit offset : Int) : Option ListResultM :=
  match proxyListSelected body with
  | .arr xs =>
    let data := unwrapDocuments parse xs
    let len : Int := data.length
    let total : Option Json :=
      match nullish (optChain (body.get "meta") "total") with
      | some v => some v
      | none =>
        match nullish (optChain (body.get "meta") "totalCount") with
        | some v => some v
        | none =>
          match nullish (body.get "totalCount") with
          | some v => some v
          | none => some (.num len)
    some { data := .arr data,
           pagination :=
             { total := total, limit := limit, offset := offset,
               hasMore := hasMoreCalc offset (some len) total } }
  | _ => none

/-- The query parameters direct-mode `list` sets before the filter loop
(collection.ts lines 36-43). -/
def listBaseParams (limit offset : Int) (orderBy orderDir : Option String) :
    List (String × String) :=
  let params := [("limit", toString limit), ("offset", toString offset)]
  match orderBy with
  | some ob =>
    if ob != "" then
      setStr (setStr params "orderBy" ob) "orderDir"
        (match orderDir with
         | some d => if d != "" then d else "asc"
         | none => "asc")
    else params
  | none => params

/-- The filter loop of direct-mode `list` (collection.ts lines 45-51):
entries whose value is `undefined` or `null` are skipped, every other value
is set as `filter[key] = String(value)`. -/
def addFilterParams : List (String × String) → List (String × Option Json) →
    List (String × String)
  | params, [] => params
  | params, (k, ov) :: rest =>
    addFilterParams
      (match ov with
       | none => params
       | some .null => params
       | some v => setStr params ("filter[" ++ k ++ "]") (jsToString v))
      rest

/-- `CollectionImpl.get` (collection.ts lines 130-151) applied to the
combined outcome of `httpRequest` + `parseResponse`: on success unwrap the
`{data}` envelope or the body itself; in the catch, only a `VibeError` with
code `NOT_FOUND` becomes a null result, everything else is rethrown. -/
def getOp (outcome : Except Thrown Json) (parse : String → Option Json) :
    Except Thrown (Option Json) :=
  match outcome with
  | .ok body =>
    match body with
    | .obj fields =>
      if hasKey fields "data" then
        .ok (unwrapDocument parse ((getField fields "data").getD .null))
      else .ok (unwrapDocument parse body)
    | _ => .ok (unwrapDocument parse body)
  | .error (.vibe e) =>
    if e.code = .NOT_FOUND then .ok none else .error (.vibe e)
  | .error t => .error t

/-- `CollectionImpl.create` / `update` result handling: unwrap, no catch. -/
def createOp (outcome : Except Thrown Json) (parse : String → Option Json) :
    Except Thrown (Option Json) :=
  match outcome with
  | .ok body =>
    match body with
    | .obj fields =>
      if hasKey fields "data" then
        .ok (unwrapDocument parse ((getField fields "data").getD .null))
      else .ok (unwrapDocument parse body)
    | _ => .ok (unwrapDocument parse body)
  | .error t => .error t

/-- `CollectionImpl.update` shares `create`'s response handling. -/
def updateOp (outcome : Except Thrown Json) (parse : String → Option Json) :
    Except Thrown (Option Json) :=
  createOp outcome parse

/-- `CollectionImpl.delete`: discard the response, no catch. -/
def deleteOp (outcome : Except Thrown HttpResp) : Except Thrown Unit :=
  match outcome with
  | .ok _ => .ok ()
  | .error t => .error t

/-- Direct-mode `list` applied to the request/parse outcome: no catch. -/
def listDirectOp (outcome : Except Thrown Json) (limit offset : Int) :
    Except Thrown ListResultM :=
  match outcome with
  | .ok body => .ok (listDirectResult body limit offset)
  | .error t => .error t

/-- Proxy-mode `listViaQuery` applied to the request/parse outcome: no
catch. -/
def listViaQueryOp (parse : String → Option Json)
    (outcome : Except Thrown Json) (limit offset : Int) :
    Except Thrown (Option ListResultM) :=
  match outcome with
  | .ok body => .ok (listViaQueryResult parse body limit offset)
  | .error t => .error t

/-- The `get` endpoint for a collection (proxy vs direct shape). -/
def getEndpoint (config : ResolvedVibeConfig) (name id : String) : String :=
  if config.useProxy then
    "/v1/collections/" ++ config.defaultCollection ++ "/tables/" ++ name ++ "/" ++ id
  else "/v1/" ++ name ++ "/" ++ id

/-- The full `get` pipeline: `httpRequest`, `parseResponse`, then the
envelope unwrap and the `NOT_FOUND` recovery of `CollectionImpl.get`. -/
def getPipeline (web node : Option HmacFn) (config : ResolvedVibeConfig)
    (name id : String) (tokenResult : Except Thrown (Option String))
    (now : Int) (fetchFn : HttpReq → Except Thrown HttpResp)
    (parse : String → Option Json) : Except Thrown (Option Json) :=
  getOp
    (match httpRequest web node config (getEndpoint config name id) "GET" none
        false tokenResult now fetchFn with
     | .ok resp => parseResponse resp
     | .error t => .error t)
    parse

/-! ### Admin client (admin.ts) -/

/-- `AdminClientImpl.fetch` (admin.ts lines 163-202): its own plain `fetch`
wrapper — Content-Type plus optional bearer token, issued at the URL it is
given with the method it is given.  It never consults `useProxy`, `idpUrl`,
`clientId` or `signingKey`. -/
def adminFetch (url method : String) (body : Option Json)
    (token : Option String) : HttpReq :=
  let headers := [("Content-Type", "application/json")]
  let headers :=
    match token with
    | some t => if t != "" then setStr headers "Authorization" ("Bearer " ++ t) else headers
    | none => headers
  { url := url, method := method, headers := headers, body := body }

/-- The request `admin.roles.list` issues (admin.ts lines 37-47):
`GET {apiUrl}/v1/admin/roles?limit=&offset=`. -/
def adminRolesListRequest (config : ResolvedVibeConfig) (limit offset : Int)
    (token : Option String) : HttpReq :=
  adminFetch
    (config.apiUrl ++ "/v1/admin/roles?limit=" ++ toString limit
      ++ "&offset=" ++ toString offset)
    "GET" none token

/-- The request `admin.users.list` issues (admin.ts lines 102-112). -/
def adminUsersListRequest (config : ResolvedVibeConfig) (limit offset : Int)
    (token : Option String) : HttpReq :=
  adminFetch
    (config.apiUrl ++ "/v1/admin/users?limit=" ++ toString limit
      ++ "&offset=" ++ toString offset)
    "GET" none token

/-- The request `admin.tenant.getConfig` issues (admin.ts lines 151-154). -/
def adminTenantRequest (config : ResolvedVibeConfig)
    (token : Option String) : HttpReq :=
  adminFetch (config.apiUrl ++ "/v1/admin/tenant") "GET" none token

/-! ### Client accessor cache (client.ts) -/

/-- A constructed `CollectionImpl` accessor.  `allocId` is the allocation
count at construction time, standing in for JS object identity. -/
structure AccessorObj where
  allocId : Nat
  name : String
  config : ResolvedVibeConfig
deriving DecidableEq, Repr

/-- The mutable state of `VibeClientImpl`: the per-name accessor cache (a
`Map`, kept in insertion order) and the allocation counter. -/
structure ClientState where
  nextAlloc : Nat
  collections : List (String × AccessorObj)
deriving DecidableEq, Repr

/-- `Map.get`-style lookup in the accessor cache. -/
def lookupAccessor : List (String × AccessorObj) → String → Option AccessorObj
  | [], _ => none
  | (k, a) :: rest, name => if k = name then some a else lookupAccessor rest name

/-- `VibeClientImpl.collection` (client.ts lines 123-134): return the
cached accessor when present, otherwise construct one and cache it. -/
def collectionCall (config : ResolvedVibeConfig) (st : ClientState)
    (name : String) : AccessorObj × ClientState :=
  match lookupAccessor st.collections name with
  | some a => (a, st)
  | none =>
    let a : AccessorObj := ⟨st.nextAlloc, name, config⟩
    (a, ⟨st.nextAlloc + 1, st.collections ++ [(name, a)]⟩)

/-! ### Definitions modelled from the spec's words (for refinement claims) -/

/-- Modelled from the spec: the §4.3 list-unwrap precedence as the spec
states it — a raw array is used directly, otherwise the first present of
`body.data`, `body.items`, `body.documents`, otherwise the empty list.
For comparison with `directListData` / `proxyListSelected`. -/
def specListUnwrap (body : Json) : Json :=
  match body with
  | .arr xs => .arr xs
  | _ =>
    match body.get "data" with
    | some v => v
    | none =>
      match body.get "items" with
      | some v => v
      | none =>
        match body.get "documents" with
        | some v => v
        | none => .arr []

/-- Modelled from the spec: the §4.3 total-count precedence as the spec
states it — `body.meta.total`, then `body.meta.totalCount`, then
`body.totalCount`, then the unwrapped list's length.  For comparison with
the totals computed by `listDirectResult` / `listViaQueryResult`. -/
def specTotalPrecedence (body : Json) (len : Int) : Json :=
  match nullish (optChain (body.get "meta") "total") with
  | some v => v
  | none =>
    match nullish (optChain (body.get "meta") "totalCount") with
    | some v => v
    | none =>
      match nullish (body.get "totalCount") with
      | some v => v
      | none => .num len

/-! ### Helper lemmas -/

theorem getStr_setStr_self (ps : List (String × String)) (k v : String) :
    getStr (setStr ps k v) k = some v := by
  induction ps with
  | nil => simp [setStr, getStr]
  | cons kv rest ih =>
    obtain ⟨k1, v1⟩ := kv
    by_cases hk : k1 = k
    · subst hk
      simp [setStr, getStr]
    · simp [setStr, getStr, hk, ih]

theorem getStr_setStr_other (ps : List (String × String)) (k k' v : String)
    (hne : k ≠ k') : getStr (setStr ps k' v) k = getStr ps k := by
  induction ps with
  | nil => simp [setStr, getStr, hne.symm]
  | cons kv rest ih =>
    obtain ⟨k1, v1⟩ := kv
    by_cases hk : k1 = k'
    · subst hk
      simp [setStr, getStr, hne.symm]
    · simp [setStr, getStr, hk, ih]

theorem setStr_of_absent (ps : List (String × String)) (k v : String)
    (h : getStr ps k = none) : setStr ps k v = ps ++ [(k, v)] := by
  induction ps with
  | nil => simp [setStr]
  | cons kv rest ih =>
    obtain ⟨k1, v1⟩ := kv
    by_cases hk : k1 = k
    · simp [getStr, hk] at h
    · simp [getStr, hk] at h
      simp [setStr, hk, ih h]

theorem getStr_append_of_none (ps qs : List (String × String)) (k : String)
    (h : getStr ps k = none) : getStr (ps ++ qs) k = getStr qs k := by
  induction ps with
  | nil => simp
  | cons kv rest ih =>
    obtain ⟨k1, v1⟩ := kv
    by_cases hk : k1 = k
    · simp [getStr, hk] at h
    · simp [getStr, hk] at h
      simpa [getStr, hk] using ih h

theorem getStr_buildAuthHeaders (skipAuth : Bool) (token : Option String)
    (k : String) (h1 : k ≠ "Content-Type") (h2 : k ≠ "Authorization") :
    getStr (buildAuthHeaders skipAuth token) k = none := by
  have hct : ("Content-Type" = k) = False := by
    simp [h1.symm]
  cases skipAuth with
  | true => simp [buildAuthHeaders, getStr, hct]
  | false =>
    cases token with
    | none => simp [buildAuthHeaders, getStr, hct]
    | some t =>
      by_cases ht : t = ""
      · simp [buildAuthHeaders, ht, getStr, hct]
      · simp [buildAuthHeaders, ht, getStr, setStr, hct, h2.symm]

/-! ### C1: proxy request shape, canonical signed string, header policy -/

/-- C1: with `useProxy = true` the request machinery builds a POST to
`{idpUrl}/api/vibe/proxy` regardless of the logical method, with body
`{endpoint, method, data: body ?? null}`; the signature header is the HMAC
of the canonical string `timestamp|method|endpoint` (never of the proxy
URL); `X-Vibe-Client-Id` is always attached; `X-Vibe-Timestamp` and
`X-Vibe-Signature` are attached iff a signing key is configured — and with
no signing key the request is still produced (unsigned), whatever crypto
primitives are available. -/
theorem proxy_request_shape (h : HmacFn) (node web2 node2 : Option HmacFn)
    (config : ResolvedVibeConfig) (endpoint method : String)
    (body : Option Json) (skipAuth : Bool) (token : Option String)
    (now : Int) :
    (∃ req, makeProxyRequest (some h) node config endpoint method body
        (buildAuthHeaders skipAuth token) now = .ok req
      ∧ req.method = "POST"
      ∧ req.url = config.idpUrl ++ "/api/vibe/proxy"
      ∧ req.body = some (mkObj [("endpoint", .str endpoint),
                                ("method", .str method),
                                ("data", body.getD .null)])
      ∧ getStr req.headers "X-Vibe-Client-Id" = some config.clientId
      ∧ getStr req.headers "X-Vibe-Timestamp"
          = (if config.signingKey = "" then none else some (toString now))
      ∧ getStr req.headers "X-Vibe-Signature"
          = (if config.signingKey = "" then none
             else some (h config.signingKey (stringToSign now method endpoint))))
    ∧ (config.signingKey = "" →
        ∃ req, makeProxyRequest web2 node2 config endpoint method body
            (buildAuthHeaders skipAuth token) now = .ok req
          ∧ getStr req.headers "X-Vibe-Signature" = none
          ∧ getStr req.headers "X-Vibe-Timestamp" = none) := by
  have hbase : ∀ k, k ≠ "Content-Type" → k ≠ "Authorization" →
      getStr (buildAuthHeaders skipAuth token) k = none :=
    fun k h1 h2 => getStr_buildAuthHeaders skipAuth token k h1 h2
  constructor
  · by_cases hk : config.signingKey = ""
    · have heq : makeProxyRequest (some h) node config endpoint method body
          (buildAuthHeaders skipAuth token) now
          = .ok { url := config.idpUrl ++ "/api/vibe/proxy", method := "POST",
                  headers := setStr (buildAuthHeaders skipAuth token)
                    "X-Vibe-Client-Id" config.clientId,
                  body := some (mkObj [("endpoint", .str endpoint),
                                       ("method", .str method),
                                       ("data", body.getD .null)]) } := by
        simp [makeProxyRequest, hk]
      refine ⟨_, heq, rfl, rfl, rfl, ?_, ?_, ?_⟩
      · exact getStr_setStr_self _ _ _
      · rw [if_pos hk]
        rw [getStr_setStr_other _ _ _ _ (by decide)]
        exact hbase _ (by decide) (by decide)
      · rw [if_pos hk]
        rw [getStr_setStr_other _ _ _ _ (by decide)]
        exact hbase _ (by decide) (by decide)
    · have heq : makeProxyRequest (some h) node config endpoint method body
          (buildAuthHeaders skipAuth token) now
          = .ok { url := config.idpUrl ++ "/api/vibe/proxy", method := "POST",
                  headers := setStr (setStr (setStr (buildAuthHeaders skipAuth token)
                      "X-Vibe-Client-Id" config.clientId)
                      "X-Vibe-Timestamp" (toString now))
                      "X-Vibe-Signature" (h config.signingKey (stringToSign now method endpoint)),
                  body := some (mkObj [("endpoint", .str endpoint),
                                       ("method", .str method),
                                       ("data", body.getD .null)]) } := by
        simp [makeProxyRequest, hk, generateHmacSignature]
      refine ⟨_, heq, rfl, rfl, rfl, ?_, ?_, ?_⟩
      · rw [getStr_setStr_other _ _ _ _ (by decide),
          getStr_setStr_other _ _ _ _ (by decide)]
        exact getStr_setStr_self _ _ _
      · rw [if_neg hk]
        rw [getStr_setStr_other _ _ _ _ (by decide)]
        exact getStr_setStr_self _ _ _
      · rw [if_neg hk]
        exact getStr_setStr_self _ _ _
  · intro hk
    have heq : makeProxyRequest web2 node2 config endpoint method body
        (buildAuthHeaders skipAuth token) now
        = .ok { url := config.idpUrl ++ "/api/vibe/proxy", method := "POST",
                headers := setStr (buildAuthHeaders skipAuth token)
                  "X-Vibe-Client-Id" config.clientId,
                body := some (mkObj [("endpoint", .str endpoint),
                                     ("method", .str method),
                                     ("data", body.getD .null)]) } := by
      simp [makeProxyRequest, hk]
    refine ⟨_, heq, ?_, ?_⟩
    · rw [getStr_setStr_other _ _ _ _ (by decide)]
      exact hbase _ (by decide) (by decide)
    · rw [getStr_setStr_other _ _ _ _ (by decide)]
      exact hbase _ (by decide) (by decide)

/-- C1 witness: the theorem instantiated at a concrete unsigned-key
configuration, discharging the `signingKey = ""` hypothesis of its second
part. -/
theorem proxy_request_shape_witness :
    ∃ req, makeProxyRequest none none
        { apiUrl := "https://api.example.com", idpUrl := "https://idp.example.com",
          clientId := "client-1", signingKey := "", defaultCollection := "vibe_app",
          debug := false, timeout := 30000, useProxy := true }
        "/v1/products" "GET" none (buildAuthHeaders false none) 1700000000 = .ok req
      ∧ getStr req.headers "X-Vibe-Signature" = none
      ∧ getStr req.headers "X-Vibe-Timestamp" = none :=
  (proxy_request_shape (fun _ _ => "") none none none
    { apiUrl := "https://api.example.com", idpUrl := "https://idp.example.com",
      clientId := "client-1", signingKey := "", defaultCollection := "vibe_app",
      debug := false, timeout := 30000, useProxy := true }
    "/v1/products" "GET" none false none 1700000000).2 rfl

/-! ### C2: the admin sub-namespace does not use the proxy machinery -/

/-- A proxy-mode configuration for exercising the admin client. -/
def adminProxyConfig : ResolvedVibeConfig :=
  { apiUrl := "https://api.example.com", idpUrl := "https://idp.example.com",
    clientId := "client-1", signingKey := "c2VjcmV0", defaultCollection := "vibe_app",
    debug := false, timeout := 30000, useProxy := true }

/-- C2 counterexample: with `useProxy = true`, `admin.roles.list` issues a
GET directly at `{apiUrl}/v1/admin/roles?...` — not a POST to
`{idpUrl}/api/vibe/proxy` — and its body is not the proxy envelope
`{endpoint, method, data}`. -/
theorem admin_bypasses_proxy_counterexample :
    adminProxyConfig.useProxy = true
    ∧ (adminRolesListRequest adminProxyConfig 50 0 none).url
        = "https://api.example.com/v1/admin/roles?limit=50&offset=0"
    ∧ (adminRolesListRequest adminProxyConfig 50 0 none).url
        ≠ adminProxyConfig.idpUrl ++ "/api/vibe/proxy"
    ∧ (adminRolesListRequest adminProxyConfig 50 0 none).method = "GET"
    ∧ (adminRolesListRequest adminProxyConfig 50 0 none).method ≠ "POST"
    ∧ (adminRolesListRequest adminProxyConfig 50 0 none).body = none := by
  refine ⟨rfl, rfl, ?_, rfl, ?_, rfl⟩ <;> decide

/-- C2 (amended): administrative requests (roles, users, tenant) are always
issued by the admin client's own fetch wrapper directly against
`{apiUrl}/v1/admin/...` with the logical method and no proxy envelope, and
the request is unchanged when `idpUrl` / `useProxy` vary — the proxy
machinery is never involved. -/
theorem admin_requests_direct (config : ResolvedVibeConfig)
    (limit offset : Int) (token : Option String) (idp : String) (b : Bool) :
    (adminRolesListRequest config limit offset token).url
      = config.apiUrl ++ "/v1/admin/roles?limit=" ++ toString limit
        ++ "&offset=" ++ toString offset
    ∧ (adminRolesListRequest config limit offset token).method = "GET"
    ∧ (adminRolesListRequest config limit offset token).body = none
    ∧ (adminUsersListRequest config limit offset token).url
      = config.apiUrl ++ "/v1/admin/users?limit=" ++ toString limit
        ++ "&offset=" ++ toString offset
    ∧ (adminUsersListRequest config limit offset token).method = "GET"
    ∧ (adminTenantRequest config token).url = config.apiUrl ++ "/v1/admin/tenant"
    ∧ (adminTenantRequest config token).method = "GET"
    ∧ adminRolesListRequest { config with idpUrl := idp, useProxy := b }
        limit offset token = adminRolesListRequest config limit offset token
    ∧ adminUsersListRequest { config with idpUrl := idp, useProxy := b }
        limit offset token = adminUsersListRequest config limit offset token
    ∧ adminTenantRequest { config with idpUrl := idp, useProxy := b } token
        = adminTenantRequest config token :=
  ⟨rfl, rfl, rfl, rfl, rfl, rfl, rfl, rfl, rfl, rfl⟩

/-! ### C3: a throwing access-token supplier is not normalized -/

/-- A direct-mode configuration for exercising the token-supplier path. -/
def directConfig : ResolvedVibeConfig :=
  { apiUrl := "https://api.example.com", idpUrl := "", clientId := "",
    signingKey := "", defaultCollection := "vibe_app", debug := false,
    timeout := 30000, useProxy := false }

/-- C3 counterexample: a `get` without `skipAuth` whose token supplier
throws a plain `Error` resolves to that raw exception — not to a
`VibeError` of kind `UNKNOWN_ERROR`: the failure crosses the boundary
unclassified. -/
theorem token_error_unclassified_counterexample :
    getPipeline none none directConfig "products" "1"
        (.error (.exc { name := "Error", message := "token store unavailable" }))
        1700000000
        (fun _ => .ok { status := 200, statusText := "OK", body := some (.obj []) })
        (fun _ => none)
      = .error (.exc { name := "Error", message := "token store unavailable" })
    ∧ Thrown.isVibe (.exc { name := "Error", message := "token store unavailable" })
      = false :=
  ⟨rfl, rfl⟩

/-- C3 (amended): a value thrown by the access-token supplier escapes
`httpRequest` unchanged — the token await precedes the try/catch that
applies `VibeError.fromError`, so no classification happens — and the
collection `get` pipeline rethrows a raw (non-`VibeError`) exception
unchanged to the caller. -/
theorem token_error_escapes_raw (web node : Option HmacFn)
    (config : ResolvedVibeConfig) (endpoint method : String)
    (body : Option Json) (t : Thrown) (now : Int)
    (fetchFn : HttpReq → Except Thrown HttpResp) (name id : String)
    (e : RawExc) (parse : String → Option Json) :
    httpRequest web node config endpoint method body false (.error t) now fetchFn
      = .error t
    ∧ getPipeline web node config name id (.error (.exc e)) now fetchFn parse
      = .error (.exc e) :=
  ⟨rfl, rfl⟩

/-! ### C4: the no-crypto signing failure is retryable, not fatal -/

/-- C4 counterexample: with no crypto primitive available the Signature
Generator throws the `SERVER_ERROR` "HMAC signing not available" error, and
`isRetryable` on that error yields `true` — not `false` as the claim
states. -/
theorem hmac_unavailable_retryable_counterexample :
    generateHmacSignature none none "a2V5" 1700000000 "GET" "/v1/products"
      = .error { code := .SERVER_ERROR,
                 message := "HMAC signing not available - missing crypto support" }
    ∧ VibeError.isRetryable
        { code := .SERVER_ERROR,
          message := "HMAC signing not available - missing crypto support" }
      = true :=
  ⟨rfl, rfl⟩

/-- C4 (amended): if no cryptographic primitive is available at signing
time, the Signature Generator fails with a `VibeError` of kind
`SERVER_ERROR` ("HMAC signing not available - missing crypto support"),
and under the taxonomy's retryability rule that error is retryable:
`isRetryable` yields `true`. -/
theorem hmac_unavailable_error (signingKey : String) (timestamp : Int)
    (method endpoint : String) :
    generateHmacSignature none none signingKey timestamp method endpoint
      = .error { code := .SERVER_ERROR,
                 message := "HMAC signing not available - missing crypto support" }
    ∧ VibeError.isRetryable
        { code := .SERVER_ERROR,
          message := "HMAC signing not available - missing crypto support" }
      = true :=
  ⟨rfl, rfl⟩

/-! ### C5: the list-unwrap precedence differs between the two modes -/

/-- C5 counterexample: direct-mode `list` ignores `body.items` (it only
tries `body.data`), and proxy-mode `list` ignores a raw-array body — both
contradict the claimed uniform precedence, witnessed against the
spec-modelled `specListUnwrap`. -/
theorem list_unwrap_precedence_counterexample :
    directListData (.obj [("items", .arr [.num 1])]) = .arr []
    ∧ specListUnwrap (.obj [("items", .arr [.num 1])]) = .arr [.num 1]
    ∧ proxyListSelected (.arr [.num 1]) = .arr []
    ∧ specListUnwrap (.arr [.num 1]) = .arr [.num 1]
    ∧ Json.arr [] ≠ Json.arr [.num 1] := by
  refine ⟨rfl, rfl, rfl, rfl, ?_⟩
  intro h
  injection h with h2
  exact List.noConfusion h2

/-- C5 (amended): direct-mode `list` uses a raw array body directly,
otherwise `body.data` when present and truthy, otherwise the empty list —
`body.items` / `body.documents` are never consulted; proxy-mode `list`
selects the first truthy of `body.data`, `body.items`, `body.documents`
(then unwraps each element), otherwise the empty list — a raw array body is
not used and yields the empty selection. -/
theorem list_unwrap_behavior (parse : String → Option Json) (body : Json)
    (limit offset : Int) :
    (∀ xs, body = .arr xs → directListData body = .arr xs)
    ∧ (∀ fields, body = .obj fields → hasKey fields "data" = false →
        directListData body = .arr [])
    ∧ (∀ v, body.get "data" = some v → jsTruthy v = true →
        directListData body = v)
    ∧ (∀ xs, body = .arr xs → proxyListSelected body = .arr [])
    ∧ (∀ v, body.get "data" = some v → jsTruthy v = true →
        proxyListSelected body = v)
    ∧ (∀ v, absentOrFalsy (body.get "data") = true →
        body.get "items" = some v → jsTruthy v = true →
        proxyListSelected body = v)
    ∧ (∀ v, absentOrFalsy (body.get "data") = true →
        absentOrFalsy (body.get "items") = true →
        body.get "documents" = some v → jsTruthy v = true →
        proxyListSelected body = v)
    ∧ (absentOrFalsy (body.get "data") = true →
        absentOrFalsy (body.get "items") = true →
        absentOrFalsy (body.get "documents") = true →
        proxyListSelected body = .arr [])
    ∧ (∀ xs, proxyListSelected body = .arr xs →
        ∃ r, listViaQueryResult parse body limit offset = some r
          ∧ r.data = .arr (unwrapDocuments parse xs)) := by
  refine ⟨?_, ?_, ?_, ?_, ?_, ?_, ?_, ?_, ?_⟩
  · intro xs h
    subst h
    rfl
  · intro fields h hk
    subst h
    cases hgf : getField fields "data" with
    | none => simp [directListData, jsOr, Json.get, hgf]
    | some v =>
      rw [hasKey, hgf] at hk
      simp at hk
  · intro v hget htr
    cases body <;> simp [Json.get] at hget
    simp [directListData, jsOr, Json.get, hget, htr]
  · intro xs h
    subst h
    rfl
  · intro v hget htr
    simp [proxyListSelected, jsOr, hget, htr]
  · intro v hdata hget htr
    cases hd : body.get "data" with
    | none => simp [proxyListSelected, jsOr, hd, hget, htr]
    | some w =>
      rw [hd] at hdata
      simp [absentOrFalsy] at hdata
      simp [proxyListSelected, jsOr, hd, hdata, hget, htr]
  · intro v hdata hitems hget htr
    cases hd : body.get "data" with
    | none =>
      cases hi : body.get "items" with
      | none => simp [proxyListSelected, jsOr, hd, hi, hget, htr]
      | some w =>
        rw [hi] at hitems
        simp [absentOrFalsy] at hitems
        simp [proxyListSelected, jsOr, hd, hi, hitems, hget, htr]
    | some w =>
      rw [hd] at hdata
      simp [absentOrFalsy] at hdata
      cases hi : body.get "items" with
      | none => simp [proxyListSelected, jsOr, hd, hi, hdata, hget, htr]
      | some w2 =>
        rw [hi] at hitems
        simp [absentOrFalsy] at hitems
        simp [proxyListSelected, jsOr, hd, hi, hdata, hitems, hget, htr]
  · intro hdata hitems hdocs
    cases hd : body.get "data" <;> cases hi : body.get "items" <;>
      cases hdc : body.get "documents" <;>
        rw [hd] at hdata <;> rw [hi] at hitems <;> rw [hdc] at hdocs <;>
          simp [absentOrFalsy] at hdata hitems hdocs <;>
            simp [proxyListSelected, jsOr, hd, hi, hdc, *]
  · intro xs h
    rw [listViaQueryResult, h]
    exact ⟨_, rfl, rfl⟩

/-- C5 witness: the amended theorem applied at the concrete body
`{items: [2]}` — proxy mode selects the `items` array, direct mode yields
the empty list. -/
theorem list_unwrap_behavior_witness :
    proxyListSelected (.obj [("items", .arr [.num 2])]) = .arr [.num 2]
    ∧ directListData (.obj [("items", .arr [.num 2])]) = .arr [] :=
  ⟨(list_unwrap_behavior (fun _ => none) (.obj [("items", .arr [.num 2])])
      20 0).2.2.2.2.2.1 (.arr [.num 2]) rfl rfl rfl,
   (list_unwrap_behavior (fun _ => none) (.obj [("items", .arr [.num 2])])
      20 0).2.1 [("items", .arr [.num 2])] rfl rfl⟩

/-! ### C6: document-envelope unwrap and swallowed parse failures -/

/-- C6: for an object carrying both `document_id` and `data`, the envelope
unwrap returns `{id: document_id, ...parsedData}` when `data` is an
embedded object or a string that parses, and exactly `{id: document_id}`
when `data` is a string that fails to parse — the parse failure is
swallowed (the unwrap still returns a value, never an error). -/
theorem unwrap_document_envelope (parse : String → Option Json)
    (fields : List (String × Json))
    (hdid : hasKey fields "document_id" = true)
    (hdata : hasKey fields "data" = true) :
    (∀ s, getField fields "data" = some (.str s) → parse s = none →
        unwrapDocument parse (.obj fields)
          = some (.obj [("id", (getField fields "document_id").getD .null)]))
    ∧ (∀ s p, getField fields "data" = some (.str s) → parse s = some p →
        unwrapDocument parse (.obj fields)
          = some (mkObj (("id", (getField fields "document_id").getD .null)
              :: spreadFields p)))
    ∧ (∀ fs, getField fields "data" = some (.obj fs) →
        unwrapDocument parse (.obj fields)
          = some (mkObj (("id", (getField fields "document_id").getD .null)
              :: fs))) := by
  refine ⟨?_, ?_, ?_⟩
  · intro s hget hp
    simp [unwrapDocument, jsTruthy, hdid, hdata, hget, hp, spreadFields,
      mkObj, setField]
  · intro s p hget hp
    simp [unwrapDocument, jsTruthy, hdid, hdata, hget, hp]
  · intro fs hget
    simp [unwrapDocument, jsTruthy, hdid, hdata, hget, spreadFields]

/-- C6 witness: the theorem applied at the two concrete envelopes of the
spec's scenarios D and E. -/
theorem unwrap_document_envelope_witness :
    unwrapDocument (fun _ => none)
        (.obj [("document_id", .num 7), ("data", .str "not-json")])
      = some (.obj [("id", .num 7)])
    ∧ unwrapDocument (fun _ => some (.obj [("name", .str "x")]))
        (.obj [("document_id", .num 7), ("data", .str "payload")])
      = some (.obj [("id", .num 7), ("name", .str "x")]) :=
  ⟨(unwrap_document_envelope (fun _ => none)
      [("document_id", .num 7), ("data", .str "not-json")] rfl rfl).1
      "not-json" rfl rfl,
   (unwrap_document_envelope (fun _ => some (.obj [("name", .str "x")]))
      [("document_id", .num 7), ("data", .str "payload")] rfl rfl).2.1
      "payload" (.obj [("name", .str "x")]) rfl rfl⟩

/-! ### C7: only `get` recovers, and only `NOT_FOUND` -/

/-- C7: `get` converts a `NOT_FOUND` `VibeError` to a null result and
rethrows every other thrown value unchanged (including raw exceptions);
a 404 response makes the whole `get` pipeline resolve to null; and none of
`list`, `create`, `update`, `delete` recovers any error kind. -/
theorem get_recovers_only_not_found (parse : String → Option Json)
    (e : VibeError) (exc : RawExc) (s : String) (t : Thrown)
    (limit offset : Int) (st : String) (b : Option Json)
    (token : Option String) (now : Int) :
    getOp (.error (.vibe e)) parse
      = (if e.code = .NOT_FOUND then .ok none else .error (.vibe e))
    ∧ getOp (.error (.exc exc)) parse = .error (.exc exc)
    ∧ getOp (.error (.value s)) parse = .error (.value s)
    ∧ getPipeline none none directConfig "products" "9" (.ok token) now
        (fun _ => .ok { status := 404, statusText := st, body := b }) parse
      = .ok none
    ∧ listDirectOp (.error t) limit offset = .error t
    ∧ listViaQueryOp parse (.error t) limit offset = .error t
    ∧ createOp (.error t) parse = .error t
    ∧ updateOp (.error t) parse = .error t
    ∧ deleteOp (.error t) = .error t := by
  refine ⟨?_, rfl, rfl, rfl, rfl, rfl, rfl, rfl, rfl⟩
  by_cases hc : e.code = .NOT_FOUND <;> simp [getOp, hc]

/-! ### C8: pagination invariant and the total-count precedence -/

/-- A direct-mode response body carrying `totalCount` but no `meta.total`. -/
def totalCountBody : Json := .obj [("data", .arr []), ("totalCount", .num 5)]

/-- C8 counterexample: in direct mode a body with `totalCount: 5` and no
`meta.total` produces `total = 0` (the length fallback) and
`hasMore = false`, while the documented precedence (spec-modelled
`specTotalPrecedence`) gives `total = 5`, under which
`offset + length < total` would be true — so `list()` does not take `total`
by the documented precedence in direct mode. -/
theorem pagination_total_precedence_counterexample :
    (listDirectResult totalCountBody 20 0).pagination.total = some (.num 0)
    ∧ specTotalPrecedence totalCountBody 0 = .num 5
    ∧ (listDirectResult totalCountBody 20 0).pagination.hasMore = false
    ∧ decide ((0 : Int) + 0 < 5) = true :=
  ⟨rfl, rfl, rfl, rfl⟩

/-- C8 (amended): every `list()` result satisfies
`hasMore = (offset + len(data) < total)` against its own `total`; the
fallback total is the returned length; proxy mode honors the full
documented precedence down to `body.totalCount`, while direct mode consults
only `body.meta.total` before falling back to the length. -/
theorem list_pagination_invariant (parse : String → Option Json)
    (body : Json) (limit offset : Int) :
    (∀ xs t, (listDirectResult body limit offset).data = .arr xs →
        (listDirectResult body limit offset).pagination.total = some (.num t) →
        ((listDirectResult body limit offset).pagination.hasMore = true
          ↔ offset + xs.length < t))
    ∧ (nullish (optChain (body.get "meta") "total") = none →
        (listDirectResult body limit offset).pagination.total
          = (jsLen (directListData body)).map Json.num)
    ∧ (∀ r ys t, listViaQueryResult parse body limit offset = some r →
        r.data = .arr ys → r.pagination.total = some (.num t) →
        (r.pagination.hasMore = true ↔ offset + ys.length < t))
    ∧ (∀ v, nullish (optChain (body.get "meta") "total") = none →
        nullish (optChain (body.get "meta") "totalCount") = none →
        nullish (body.get "totalCount") = some v →
        ∀ r, listViaQueryResult parse body limit offset = some r →
          r.pagination.total = some v) := by
  refine ⟨?_, ?_, ?_, ?_⟩
  · intro xs t hdata htot
    have hd2 : directListData body = .arr xs := hdata
    have hh : (listDirectResult body limit offset).pagination.hasMore
        = hasMoreCalc offset (jsLen (directListData body))
            ((listDirectResult body limit offset).pagination.total) := rfl
    rw [hh, htot, hd2]
    simp [hasMoreCalc, jsLen]
  · intro hm
    show (match nullish (optChain (body.get "meta") "total") with
          | some v => some v
          | none => (jsLen (directListData body)).map Json.num)
        = (jsLen (directListData body)).map Json.num
    rw [hm]
  · intro r ys t hres hdata htot
    cases hsel : proxyListSelected body with
    | arr xs =>
      rw [listViaQueryResult, hsel] at hres
      simp only [Option.some.injEq] at hres
      subst hres
      simp only at hdata htot
      have hys : unwrapDocuments parse xs = ys := by
        injection hdata
      subst hys
      rw [show (({ data := _, pagination := _ } : ListResultM)).pagination.hasMore
          = hasMoreCalc offset (some ((unwrapDocuments parse xs).length : Int)) _ from rfl]
      rw [htot]
      simp [hasMoreCalc]
    | null => rw [listViaQueryResult, hsel] at hres; exact Option.noConfusion hres
    | bool b => rw [listViaQueryResult, hsel] at hres; exact Option.noConfusion hres
    | num n => rw [listViaQueryResult, hsel] at hres; exact Option.noConfusion hres
    | str s => rw [listViaQueryResult, hsel] at hres; exact Option.noConfusion hres
    | obj fs => rw [listViaQueryResult, hsel] at hres; exact Option.noConfusion hres
  · intro v h1 h2 h3 r hres
    cases hsel : proxyListSelected body with
    | arr xs =>
      rw [listViaQueryResult, hsel] at hres
      simp only [Option.some.injEq] at hres
      subst hres
      simp only
      rw [h1, h2, h3]
    | null => rw [listViaQueryResult, hsel] at hres; exact Option.noConfusion hres
    | bool b => rw [listViaQueryResult, hsel] at hres; exact Option.noConfusion hres
    | num n => rw [listViaQueryResult, hsel] at hres; exact Option.noConfusion hres
    | str s => rw [listViaQueryResult, hsel] at hres; exact Option.noConfusion hres
    | obj fs => rw [listViaQueryResult, hsel] at hres; exact Option.noConfusion hres

/-- C8 witness: the amended invariant applied at a concrete direct-mode
body with `meta.total = 3` and one returned document. -/
theorem list_pagination_invariant_witness :
    (listDirectResult (.obj [("data", .arr [.num 1]),
        ("meta", .obj [("total", .num 3)])]) 20 0).pagination.hasMore = true :=
  ((list_pagination_invariant (fun _ => none)
      (.obj [("data", .arr [.num 1]), ("meta", .obj [("total", .num 3)])])
      20 0).1 [.num 1] 3 rfl rfl).mpr (by decide)

/-! ### C9: the per-name accessor cache -/

theorem lookupAccessor_append_self (l : List (String × AccessorObj))
    (name : String) (a : AccessorObj) (h : lookupAccessor l name = none) :
    lookupAccessor (l ++ [(name, a)]) name = some a := by
  induction l with
  | nil => simp [lookupAccessor]
  | cons kv rest ih =>
    obtain ⟨k1, a1⟩ := kv
    by_cases hk : k1 = name
    · simp [lookupAccessor, hk] at h
    · simp [lookupAccessor, hk] at h ⊢
      exact ih h

/-- C9: `collection(name)` caches the accessor it returns under `name`, and
a repeated call with the same name returns that identical accessor object
with the client state unchanged (no new allocation). -/
theorem collection_accessor_cached (config : ResolvedVibeConfig)
    (st : ClientState) (name : String) :
    lookupAccessor (collectionCall config st name).2.collections name
      = some (collectionCall config st name).1
    ∧ (collectionCall config (collectionCall config st name).2 name).1
      = (collectionCall config st name).1
    ∧ (collectionCall config (collectionCall config st name).2 name).2
      = (collectionCall config st name).2 := by
  cases hl : lookupAccessor st.collections name with
  | some a => simp [collectionCall, hl]
  | none =>
    have h2 : lookupAccessor
        (st.collections ++ [(name, ⟨st.nextAlloc, name, config⟩)]) name
        = some ⟨st.nextAlloc, name, config⟩ :=
      lookupAccessor_append_self _ _ _ hl
    simp [collectionCall, hl, h2]

/-! ### C10: direct-mode filter serialization -/

/-- C10: direct-mode `list` drops every filter entry whose value is
`undefined` or `null` and serializes each remaining entry, in order, as the
parameter `filter[field] = String(value)` — so an `{operator, value}` pair
is stringified as a whole object (to `"[object Object]"`, see the witness),
never expanded into an operator-aware parameter. -/
theorem direct_filter_serialization (params : List (String × String))
    (filter : List (String × Option Json))
    (hfresh : ∀ kv ∈ filter, getStr params ("filter[" ++ kv.1 ++ "]") = none)
    (hnodup : (filter.map (fun kv => "filter[" ++ kv.1 ++ "]")).Nodup) :
    addFilterParams params filter
      = params ++ filter.filterMap (fun kv =>
          match kv.2 with
          | none => none
          | some .null => none
          | some v => some ("filter[" ++ kv.1 ++ "]", jsToString v)) := by
  induction filter generalizing params with
  | nil => simp [addFilterParams]
  | cons kv rest ih =>
    obtain ⟨k, ov⟩ := kv
    simp only [List.map_cons, List.nodup_cons] at hnodup
    obtain ⟨hnotin, hnd⟩ := hnodup
    have hfreshhead : getStr params ("filter[" ++ k ++ "]") = none :=
      hfresh (k, ov) (List.mem_cons_self _ _)
    have hfreshrest : ∀ kv' ∈ rest, getStr params ("filter[" ++ kv'.1 ++ "]") = none :=
      fun kv' h => hfresh kv' (List.mem_cons_of_mem _ h)
    have hfreshNew : ∀ (val : String), ∀ kv' ∈ rest,
        getStr (params ++ [("filter[" ++ k ++ "]", val)])
          ("filter[" ++ kv'.1 ++ "]") = none := by
      intro val kv' hmem
      rw [getStr_append_of_none _ _ _ (hfreshrest kv' hmem)]
      have hne : "filter[" ++ k ++ "]" ≠ "filter[" ++ kv'.1 ++ "]" := by
        intro heq
        exact hnotin (heq ▸ List.mem_map_of_mem _ hmem)
      simp [getStr, hne]
    cases ov with
    | none =>
      show addFilterParams params rest = _
      rw [ih params hfreshrest hnd]
      simp
    | some v =>
      cases v
      case null =>
        show addFilterParams params rest = _
        rw [ih params hfreshrest hnd]
        simp
      all_goals
        (simp only [addFilterParams]
         rw [setStr_of_absent _ _ _ hfreshhead, ih _ (hfreshNew _) hnd,
           List.append_assoc]
         simp)

/-- C10 witness: the serialization applied to a concrete filter holding an
`{operator, value}` pair, a null entry, an undefined entry, and a plain
string — only the pair (stringified to `"[object Object]"`) and the string
survive. -/
theorem direct_filter_serialization_witness :
    addFilterParams [("limit", "20"), ("offset", "0")]
      [("status", some (.obj [("operator", .str "gt"), ("value", .num 5)])),
       ("active", some .null), ("tag", none), ("name", some (.str "w"))]
      = [("limit", "20"), ("offset", "0"),
         ("filter[status]", "[object Object]"), ("filter[name]", "w")] := by
  rw [direct_filter_serialization _ _
      (by intro kv h; fin_cases h <;> rfl)
      (by decide)]
  rfl

end Vibe

